/-
Verification of the Easely core against its source.

This file gives a shallow embedding, in Lean 4, of the parts of the
easely-bot repository that the checked properties speak about:

  app/database/models.py   - User / Task rows and their helper methods
  app/database/queries.py  - the query layer used by the background jobs
  app/jobs/send_reminders.py - the reminder scheduler
  app/jobs/check_expiries.py - the subscription expiry sweep
  app/jobs/refresh_data.py   - the Canvas reconciliation job
  app/api/canvas_api.py      - the rate-limit handling of the gateway

Times are modelled as `Int` seconds on a single (UTC) time base; a
`timedelta(hours = h)` becomes `h * 3600` and `timedelta(days = d)`
becomes `d * 86400`.  Database rows become Lean structures, a table
becomes a `List` of rows, and SQLAlchemy mutations become pure
functions from the list to the updated list.  Fallible externals
(message sends, Canvas fetches) are passed in as explicit oracles.

A handful of functions are imported by the jobs but defined nowhere in
the repository (update_task_last_reminder, revert_user_to_free,
get_user_canvas_tasks, create_task, delete_task).  Each of those is
modelled from the specification text; its doc comment says so and
records the reading chosen.
-/

import Mathlib

namespace Easely

/-- Subscription tiers, after models.py `SubscriptionTier` (FREE / PREMIUM). -/
inductive SubscriptionTier
  | free
  | premium
deriving DecidableEq, Repr

/-- User row, after models.py `User` (the columns the checked claims read).
`subscription_expiry_date` is a nullable timestamp, hence `Option Int`. -/
structure User where
  id : Nat
  messenger_id : String
  subscription_tier : SubscriptionTier
  subscription_expiry_date : Option Int
  reminder_enabled : Bool
  is_active : Bool
  manual_tasks_this_month : Nat
  month_reset_date : Int
deriving DecidableEq, Repr

/-- models.py `User.is_premium` (lines 112-119): premium tier, a non-null
expiry, and the current time strictly before the expiry.  The Python
property reads the wall clock; here the clock is an explicit argument. -/
def User.is_premium (now : Int) (u : User) : Bool :=
  if u.subscription_tier ≠ SubscriptionTier.premium then false
  else
    match u.subscription_expiry_date with
    | none => false
    | some expiry => decide (now < expiry)

/-- models.py `User.can_add_manual_task` (lines 121-126): active premium
users always may; everyone else is capped at 5 manual tasks a month. -/
def User.can_add_manual_task (now : Int) (u : User) : Bool :=
  if u.is_premium now then true
  else decide (u.manual_tasks_this_month < 5)

/-- queries.py `increment_user_monthly_tasks` (lines 197-228).  When 31 days
have passed since `month_reset_date` the counter restarts at 1 and the reset
date moves to the start of the current month (the calendar computation
`now.replace(day=1, ...)` is abstracted as the argument `month_start`);
otherwise the counter is bumped by one. -/
def increment_user_monthly_tasks (month_start : Int → Int) (now : Int) (u : User) : User :=
  if decide (u.month_reset_date + 31 * 86400 ≤ now) then
    { u with manual_tasks_this_month := 1, month_reset_date := month_start now }
  else
    { u with manual_tasks_this_month := u.manual_tasks_this_month + 1 }

/-- Labels for the six per-window reminder-sent columns of models.py `Task`
(lines 218-223). -/
inductive Marker
  | week1
  | days3
  | day1
  | hours8
  | hours2
  | hour1
deriving DecidableEq, Repr

namespace Reminders

/-- send_reminders.py `ReminderWindow` (lines 42-48).  The message template
and emoji are presentation-only and are not modelled. -/
structure ReminderWindow where
  name : String
  hours_before : Int
deriving DecidableEq, Repr

/-- send_reminders.py `FREE_TIER_WINDOWS` (lines 51-58): the single
24-hours-before window, named "24_hour". -/
def FREE_TIER_WINDOWS : List ReminderWindow :=
  [{ name := "24_hour", hours_before := 24 }]

/-- send_reminders.py `PREMIUM_TIER_WINDOWS` (lines 60-97): six windows in
descending hours_before order. -/
def PREMIUM_TIER_WINDOWS : List ReminderWindow :=
  [{ name := "1_week", hours_before := 168 },
   { name := "3_days", hours_before := 72 },
   { name := "24_hours", hours_before := 24 },
   { name := "8_hours", hours_before := 8 },
   { name := "2_hours", hours_before := 2 },
   { name := "1_hour", hours_before := 1 }]

/-- Task row as the scheduler sees it, after models.py `Task`: the due
timestamp, the completion and soft-delete flags, and the six boolean
reminder-sent columns.  models.py declares no column whose name starts
with `last_` - that fact is what decides the duplicate-send claims. -/
structure Task where
  due_date : Int
  is_completed : Bool
  is_deleted : Bool
  reminder_1_week_sent : Bool
  reminder_3_days_sent : Bool
  reminder_1_day_sent : Bool
  reminder_8_hours_sent : Bool
  reminder_2_hours_sent : Bool
  reminder_1_hour_sent : Bool
deriving DecidableEq, Repr

/-- Read one of the six reminder-sent columns. -/
def Task.getMarker (t : Task) : Marker → Bool
  | Marker.week1 => t.reminder_1_week_sent
  | Marker.days3 => t.reminder_3_days_sent
  | Marker.day1 => t.reminder_1_day_sent
  | Marker.hours8 => t.reminder_8_hours_sent
  | Marker.hours2 => t.reminder_2_hours_sent
  | Marker.hour1 => t.reminder_1_hour_sent

/-- Set one of the six reminder-sent columns to true. -/
def Task.setMarker (t : Task) : Marker → Task
  | Marker.week1 => { t with reminder_1_week_sent := true }
  | Marker.days3 => { t with reminder_3_days_sent := true }
  | Marker.day1 => { t with reminder_1_day_sent := true }
  | Marker.hours8 => { t with reminder_8_hours_sent := true }
  | Marker.hours2 => { t with reminder_2_hours_sent := true }
  | Marker.hour1 => { t with reminder_1_hour_sent := true }

/-- send_reminders.py `should_send_reminder` (lines 161-195).  The target
time is `due - hours_before`, and the check passes when `now` is within
1800 seconds of it.  The subsequent already-sent guard of lines 184-189
reads `hasattr(task, f"last_{window.name}_reminder")`; models.py `Task`
declares no `last_*_reminder` column for any window name, so `hasattr` is
False, the guard body never runs, and the function returns True whenever
the time check passes. -/
def should_send_reminder (task : Task) (window : ReminderWindow) (current_time : Int) : Bool :=
  let target_reminder_time := task.due_date - window.hours_before * 3600
  let time_diff := (current_time - target_reminder_time).natAbs
  let within_window := decide (time_diff ≤ 1800)
  if !within_window then
    false
  else
    true

/-- Map a scheduler window name to the reminder-sent column it stands for.
The names "1_week", "3_days", "8_hours", "2_hours", "1_hour" match the
mapping in models.py `Task.mark_reminder_sent` (lines 284-296); the
scheduler names its 24-hour windows "24_hour" (free list) and "24_hours"
(premium list), which correspond to the `reminder_1_day_sent` column. -/
def marker_for_window (window_name : String) : Option Marker :=
  if window_name = "1_week" then some Marker.week1
  else if window_name = "3_days" then some Marker.days3
  else if window_name = "24_hour" then some Marker.day1
  else if window_name = "24_hours" then some Marker.day1
  else if window_name = "8_hours" then some Marker.hours8
  else if window_name = "2_hours" then some Marker.hours2
  else if window_name = "1_hour" then some Marker.hour1
  else none

/-- Modelled from the spec: `update_task_last_reminder` is imported by
send_reminders.py (line 23) and called after a successful dispatch
(line 281), but queries.py defines no such function.  The specification
says a successful dispatch must "mark that window's sent flag true and
persist", so the model sets the dispatched window's reminder-sent column. -/
def update_task_last_reminder (window_name : String) (task : Task) : Task :=
  match marker_for_window window_name with
  | some m => task.setMarker m
  | none => task

/-- The branch condition of send_reminders.py line 254,
`task.user.subscription_tier == 'premium'`.  The column is declared
`Column(Enum(SubscriptionTier))` (models.py lines 67-72), so the loaded
attribute is the enum member `SubscriptionTier.PREMIUM`, and a plain
`enum.Enum` member never compares equal to its value string in Python
(elsewhere the repository compares against the member itself, and
models.py line 110 reads `.value` when it wants the string).  The
comparison is therefore False for every user, whatever the stored tier. -/
def tier_equals_premium_string (user : User) : Bool :=
  false

/-- send_reminders.py `process_reminders` lines 253-257: the window list is
chosen by the enum-to-string comparison of line 254, which never holds, so
the premium branch is dead and every task receives the free-tier list. -/
def available_windows (user : User) : List ReminderWindow :=
  if tier_equals_premium_string user then PREMIUM_TIER_WINDOWS
  else FREE_TIER_WINDOWS

/-- Outcome of processing one task in one invocation: the task's final
state, the window the loop stopped at (if any), and how many
notifications were dispatched. -/
structure TaskRunResult where
  task : Task
  attempted : Option ReminderWindow
  sent : Nat
deriving Repr

/-- The inner window loop of send_reminders.py `process_reminders`
(lines 260-287): walk the window list in order; at the first window whose
`should_send_reminder` check passes, dispatch; on success persist the sent
flag; then break out of the loop whether or not the send succeeded.
`send` is the Notification Dispatcher oracle. -/
def run_task_windows (send : ReminderWindow → Bool) (windows : List ReminderWindow)
    (task : Task) (current_time : Int) : TaskRunResult :=
  match windows with
  | [] => { task := task, attempted := none, sent := 0 }
  | w :: rest =>
    if should_send_reminder task w current_time then
      if send w then
        { task := update_task_last_reminder w.name task, attempted := some w, sent := 1 }
      else
        { task := task, attempted := some w, sent := 0 }
    else
      run_task_windows send rest task current_time

/-- Per-task body of send_reminders.py `process_reminders` (lines 251-292):
pick the tier's window list, then run the window loop. -/
def process_task (send : ReminderWindow → Bool) (user : User) (task : Task)
    (current_time : Int) : TaskRunResult :=
  run_task_windows send (available_windows user) task current_time

/-- queries.py `get_tasks_needing_reminders` lines 607-615: the due-date
band queried for each reminder type, as (start, end) offsets from `now`.
Every band is one hour wide on each side of the window target except
"1_hour", whose band runs from now+30min to now+90min. -/
def reminder_query_band (now : Int) (reminder_type : String) : Option (Int × Int) :=
  if reminder_type = "1_week" then some (now + (6 * 86400 + 23 * 3600), now + (7 * 86400 + 3600))
  else if reminder_type = "3_days" then some (now + (2 * 86400 + 23 * 3600), now + (3 * 86400 + 3600))
  else if reminder_type = "1_day" then some (now + 23 * 3600, now + 25 * 3600)
  else if reminder_type = "8_hours" then some (now + 7 * 3600, now + 9 * 3600)
  else if reminder_type = "2_hours" then some (now + 3600, now + 3 * 3600)
  else if reminder_type = "1_hour" then some (now + 1800, now + 5400)
  else none

/-- queries.py `get_tasks_needing_reminders` lines 631-657: per reminder
type, the corresponding sent column must still be false. -/
def marker_unsent (reminder_type : String) (t : Task) : Bool :=
  if reminder_type = "1_week" then !t.reminder_1_week_sent
  else if reminder_type = "3_days" then !t.reminder_3_days_sent
  else if reminder_type = "1_day" then !t.reminder_1_day_sent
  else if reminder_type = "8_hours" then !t.reminder_8_hours_sent
  else if reminder_type = "2_hours" then !t.reminder_2_hours_sent
  else if reminder_type = "1_hour" then !t.reminder_1_hour_sent
  else false

/-- queries.py `get_tasks_needing_reminders` lines 631-657: every reminder
type except "1_day" is restricted to users whose stored tier is premium
("All users get 1-day"); the expiry date is not part of the filter. -/
def tier_filter (reminder_type : String) (u : User) : Bool :=
  if reminder_type = "1_day" then true
  else u.subscription_tier = SubscriptionTier.premium

/-- queries.py `get_tasks_needing_reminders` (lines 597-665): the complete
row filter for one reminder type - not deleted, not completed, due date
inside the type's band, user active with reminders enabled, the type's
sent column false, and the tier restriction. -/
def reminder_query_filter (now : Int) (reminder_type : String) (t : Task) (u : User) : Bool :=
  match reminder_query_band now reminder_type with
  | none => false
  | some (start_time, end_time) =>
    !t.is_deleted && !t.is_completed
      && decide (start_time ≤ t.due_date) && decide (t.due_date ≤ end_time)
      && u.is_active && u.reminder_enabled
      && marker_unsent reminder_type t && tier_filter reminder_type u

/-- Hours before the due date that each query reminder type targets. -/
def reminder_type_hours (reminder_type : String) : Option Int :=
  if reminder_type = "1_week" then some 168
  else if reminder_type = "3_days" then some 72
  else if reminder_type = "1_day" then some 24
  else if reminder_type = "8_hours" then some 8
  else if reminder_type = "2_hours" then some 2
  else if reminder_type = "1_hour" then some 1
  else none

end Reminders

namespace Expiry

/-- queries.py `get_expired_premium_users` (lines 695-715): active users
whose stored tier is premium and whose expiry date is strictly before now.
A SQL comparison against NULL is not satisfied, so a missing expiry date
never matches. -/
def get_expired_premium_users (now : Int) (users : List User) : List User :=
  users.filter (fun u =>
    u.subscription_tier = SubscriptionTier.premium
      && (match u.subscription_expiry_date with
          | some expiry => decide (expiry < now)
          | none => false)
      && u.is_active)

/-- The row mutation of queries.py `downgrade_expired_users` (lines 730-738):
tier becomes FREE and the expiry date is cleared to NULL. -/
def downgrade_user (u : User) : User :=
  { u with subscription_tier := SubscriptionTier.free, subscription_expiry_date := none }

/-- queries.py `downgrade_expired_users` (lines 718-747): bulk-update every
user whose id is in the given list; the return value is the number of rows
hit. -/
def downgrade_expired_users (db : List User) (user_ids : List Nat) : List User × Nat :=
  (db.map (fun u => if user_ids.contains u.id then downgrade_user u else u),
   (db.filter (fun u => user_ids.contains u.id)).length)

/-- Modelled from the spec: `revert_user_to_free` is imported by
check_expiries.py (line 20) and called per user (line 92), but queries.py
defines no such function.  The specification says the sweep "flips tier to
free, clears expiry", which is the single-user form of the row mutation in
queries.py `downgrade_expired_users`; success means the user id was found. -/
def revert_user_to_free (db : List User) (user_id : Nat) : List User × Bool :=
  (db.map (fun u => if u.id = user_id then downgrade_user u else u),
   db.any (fun u => u.id = user_id))

/-- Running state of the expiry sweep: the user table, the count of users
reverted, the messenger ids to which a notification send was attempted (in
order), and the count of sends that succeeded. -/
structure SweepState where
  db : List User
  reverted_count : Nat
  notified : List String
  notification_count : Nat
deriving Repr

/-- One iteration of the loop in check_expiries.py `process_expired_users`
(lines 89-106): revert the user; if the revert succeeded, count it and
attempt exactly one expiry notification (send_expiry_notification,
lines 37-64).  The send outcome, delivered by the `send` oracle, is only
counted - it feeds into no other state. -/
def process_one_expired_user (send : String → Bool) (st : SweepState) (u : User) : SweepState :=
  let r := revert_user_to_free st.db u.id
  if r.2 then
    { db := r.1, reverted_count := st.reverted_count + 1,
      notified := st.notified ++ [u.messenger_id],
      notification_count := st.notification_count + (if send u.messenger_id then 1 else 0) }
  else
    { db := r.1, reverted_count := st.reverted_count, notified := st.notified,
      notification_count := st.notification_count }

/-- check_expiries.py `process_expired_users` (lines 66-120): select the
expired premium users, then process each in turn. -/
def process_expired_users (send : String → Bool) (now : Int) (db : List User) : SweepState :=
  (get_expired_premium_users now db).foldl (process_one_expired_user send)
    { db := db, reverted_count := 0, notified := [], notification_count := 0 }

end Expiry

namespace Sync

/-- One assignment of the Canvas snapshot as refresh_data.py sees it:
`id` is already stringified (`str(assignment['id'])`, line 85), and
`name` / `due_at` are optional dictionary entries. -/
structure CanvasAssignment where
  id : String
  name : Option String
  due_at : Option String
deriving DecidableEq, Repr

/-- Task row as the reconciler sees it, after models.py `Task`: the local
primary key, the Canvas correlation id, title, due date (represented by
its ISO rendering, the form line 121 of refresh_data.py compares against),
status flags and the six reminder-sent columns. -/
structure MirrorTask where
  id : Nat
  canvas_assignment_id : Option String
  title : String
  due_date : Option String
  is_completed : Bool
  is_deleted : Bool
  reminder_1_week_sent : Bool
  reminder_3_days_sent : Bool
  reminder_1_day_sent : Bool
  reminder_8_hours_sent : Bool
  reminder_2_hours_sent : Bool
  reminder_1_hour_sent : Bool
deriving DecidableEq, Repr

/-- Read one of the six reminder-sent columns of a mirrored task. -/
def MirrorTask.getMarker (t : MirrorTask) : Marker → Bool
  | Marker.week1 => t.reminder_1_week_sent
  | Marker.days3 => t.reminder_3_days_sent
  | Marker.day1 => t.reminder_1_day_sent
  | Marker.hours8 => t.reminder_8_hours_sent
  | Marker.hours2 => t.reminder_2_hours_sent
  | Marker.hour1 => t.reminder_1_hour_sent

/-- Field data of a task-creation call (refresh_data.py lines 96-103):
the correlation id, the title (defaulting to "Untitled Assignment") and
the snapshot's due timestamp.  Row ids are assigned by the store. -/
structure TaskData where
  canvas_assignment_id : String
  title : String
  due_date : Option String
deriving DecidableEq, Repr

/-- Modelled from the spec: `get_user_canvas_tasks` is imported by
refresh_data.py (line 23) and called at line 80, but queries.py defines no
such function.  The specification compares the snapshot "against the set of
assignment identifiers currently mirrored (non-deleted) for that user", so
the model returns the user's non-deleted tasks that carry a Canvas
assignment id. -/
def get_user_canvas_tasks (db : List MirrorTask) : List MirrorTask :=
  db.filter (fun t => !t.is_deleted && t.canvas_assignment_id.isSome)

/-- Lookup in the dictionary built at refresh_data.py lines 84-87; a Python
dict comprehension keeps the last entry written for a key, hence the
search from the rear. -/
def lookup_assignment (canvas : List CanvasAssignment) (aid : String) : Option CanvasAssignment :=
  canvas.reverse.find? (fun a => a.id = aid)

/-- queries.py `update_task` (lines 414-441) applied to the update dict of
refresh_data.py lines 122-125: overwrite exactly the title and due_date
columns of the row with the given id (`Task.id` is the primary key, so at
most one row matches). -/
def update_task (db : List MirrorTask) (task_id : Nat) (title : String)
    (due : Option String) : List MirrorTask :=
  db.map (fun t => if t.id = task_id then { t with title := title, due_date := due } else t)

/-- Modelled from the spec: `delete_task` is imported by refresh_data.py
(line 27) and called at line 135, but queries.py defines no such function.
The specification says a task that disappears upstream is soft-deleted,
which is exactly queries.py `soft_delete_task` (lines 458-469): the
`is_deleted` flag of the row with the given id is set. -/
def delete_task (db : List MirrorTask) (task_id : Nat) : List MirrorTask :=
  db.map (fun t => if t.id = task_id then { t with is_deleted := true } else t)

/-- The update condition at refresh_data.py line 121.  The line is the
conditional expression
`(canvas_due != mirror_due.isoformat()) if mirror_due else None`:
with a stored due date the branch tests only the due timestamp (the title
is not compared); with none the condition is None, which is falsy. -/
def due_differs (a : CanvasAssignment) (t : MirrorTask) : Bool :=
  match t.due_date with
  | some d => decide (a.due_at ≠ some d)
  | none => false

/-- Result of refresh_data.py `sync_user_assignments`: the mutated task
table, the creation calls issued, and the three counters it returns. -/
structure SyncAssignmentsResult where
  db : List MirrorTask
  created : List TaskData
  added : Nat
  updated : Nat
  deleted : Nat
deriving Repr

/-- refresh_data.py `sync_user_assignments` (lines 64-143).  Sets of ids
are modelled as deduplicated lists; iteration over a set follows the
snapshot's (respectively the mirror's) order, which the per-id reasoning
below never depends on.
New ids (snapshot minus mirror) produce creation calls; ids present on
both sides are re-checked with `due_differs` and, when it fires, the title
and due date are overwritten through `update_task`; mirrored ids absent
from the snapshot are removed through `delete_task` by walking the
existing tasks (lines 131-137). -/
def sync_user_assignments (db : List MirrorTask) (canvas : List CanvasAssignment) :
    SyncAssignmentsResult :=
  let existing_tasks := get_user_canvas_tasks db
  let existing_task_ids := (existing_tasks.filterMap (fun t => t.canvas_assignment_id)).dedup
  let canvas_assignment_ids := (canvas.map (fun a => a.id)).dedup
  let new_ids := canvas_assignment_ids.filter (fun i => !existing_task_ids.contains i)
  let created := new_ids.filterMap (fun i =>
    (lookup_assignment canvas i).map (fun a =>
      { canvas_assignment_id := i,
        title := a.name.getD "Untitled Assignment",
        due_date := a.due_at }))
  let both_ids := canvas_assignment_ids.filter (fun i => existing_task_ids.contains i)
  let db1 := both_ids.foldl (fun acc i =>
    match lookup_assignment canvas i,
          existing_tasks.find? (fun t => t.canvas_assignment_id = some i) with
    | some a, some t =>
      if due_differs a t then update_task acc t.id (a.name.getD t.title) a.due_at else acc
    | _, _ => acc) db
  let updated_count := both_ids.countP (fun i =>
    match lookup_assignment canvas i,
          existing_tasks.find? (fun t => t.canvas_assignment_id = some i) with
    | some a, some t => due_differs a t
    | _, _ => false)
  let deleted_ids := existing_task_ids.filter (fun i => !canvas_assignment_ids.contains i)
  let db2 := existing_tasks.foldl (fun acc t =>
    match t.canvas_assignment_id with
    | some i => if deleted_ids.contains i then delete_task acc t.id else acc
    | none => acc) db1
  let deleted_count := existing_tasks.countP (fun t =>
    match t.canvas_assignment_id with
    | some i => deleted_ids.contains i
    | none => false)
  { db := db2, created := created, added := created.length,
    updated := updated_count, deleted := deleted_count }

/-- Per-row form of one update iteration of `sync_user_assignments`: the
effect that processing the both-sides id `i` has on an arbitrary row `u`
of the table.  Used to factor the update fold into a pointwise map. -/
def upd_step (existing_tasks : List MirrorTask) (canvas : List CanvasAssignment)
    (i : String) (u : MirrorTask) : MirrorTask :=
  match lookup_assignment canvas i,
        existing_tasks.find? (fun t => t.canvas_assignment_id = some i) with
  | some a, some t =>
    if due_differs a t then
      (if u.id = t.id then { u with title := a.name.getD t.title, due_date := a.due_at }
       else u)
    else u
  | _, _ => u

/-- Per-row form of one removal iteration of `sync_user_assignments`: the
effect that processing the existing task `t0` has on an arbitrary row `u`
of the table. -/
def del_step (deleted_ids : List String) (t0 : MirrorTask) (u : MirrorTask) : MirrorTask :=
  match t0.canvas_assignment_id with
  | some i =>
    if deleted_ids.contains i then
      (if u.id = t0.id then { u with is_deleted := true } else u)
    else u
  | none => u

/-- The per-row effect one reconciliation run is expected to have, read off
the source: a soft-deleted or non-Canvas row is untouched; a mirrored row
whose id is still in the snapshot is overwritten (title and due date only)
exactly when `due_differs` fires; a mirrored row whose id left the
snapshot is soft-deleted. -/
def reconcile_expected (canvas : List CanvasAssignment) (t : MirrorTask) : MirrorTask :=
  if t.is_deleted then t
  else
    match t.canvas_assignment_id with
    | none => t
    | some i =>
      match lookup_assignment canvas i with
      | some a =>
        if due_differs a t then { t with title := a.name.getD t.title, due_date := a.due_at }
        else t
      | none => { t with is_deleted := true }

/-- models.py `Task.mark_reminder_sent` (lines 284-296): set the column
named by the reminder type; unknown types are ignored. -/
def mark_reminder_sent (reminder_type : String) (t : MirrorTask) : MirrorTask :=
  if reminder_type = "1_week" then { t with reminder_1_week_sent := true }
  else if reminder_type = "3_days" then { t with reminder_3_days_sent := true }
  else if reminder_type = "1_day" then { t with reminder_1_day_sent := true }
  else if reminder_type = "8_hours" then { t with reminder_8_hours_sent := true }
  else if reminder_type = "2_hours" then { t with reminder_2_hours_sent := true }
  else if reminder_type = "1_hour" then { t with reminder_1_hour_sent := true }
  else t

/-- The four row mutations normal operation applies to a task: marking a
reminder sent (models.py lines 284-296), the reconciliation overwrite of
title and due date (refresh_data.py lines 122-127 through queries.py
`update_task`), completion (queries.py `mark_task_completed`, lines
444-455) and soft deletion (queries.py `soft_delete_task`, lines 458-469). -/
inductive TaskOp
  | markReminder (reminder_type : String)
  | reconcileUpdate (title : String) (due : Option String)
  | complete
  | softDelete

/-- Apply one of the four normal-operation mutations to a row. -/
def TaskOp.apply : TaskOp → MirrorTask → MirrorTask
  | TaskOp.markReminder reminder_type, t => mark_reminder_sent reminder_type t
  | TaskOp.reconcileUpdate title due, t => { t with title := title, due_date := due }
  | TaskOp.complete, t => { t with is_completed := true }
  | TaskOp.softDelete, t => { t with is_deleted := true }

end Sync

namespace Gateway

/-- Typed failures of the Canvas gateway, after canvas_api.py lines 21-33:
`token_invalid` is TokenInvalidError, `rate_limit` is RateLimitError, and
`api_error` stands for every other CanvasAPIError.  Both subclasses extend
CanvasAPIError, which is what the handler clauses below rely on. -/
inductive CanvasFailure
  | token_invalid
  | rate_limit
  | api_error
deriving DecidableEq, Repr

/-- Error classification recorded by refresh_data.py `sync_single_user`
(lines 243-254) in its result dict. -/
inductive SyncError
  | invalid_token
  | canvas_api_error
deriving DecidableEq, Repr

/-- Outcome of one `sync_single_user` call: whether it succeeded, the
recorded error, and how many times the assignment fetch was invoked. -/
structure SyncAttemptLog where
  success : Bool
  error : Option SyncError
  assignment_fetches : Nat
deriving DecidableEq, Repr

/-- refresh_data.py `sync_single_user` (lines 199-256), with the two Canvas
fetches passed as oracles indexed by invocation count.  The body calls
`get_assignments` once and `get_courses` once; an `InvalidTokenError`
marks the token invalid, and every other `CanvasAPIError` - RateLimitError
included, being a subclass - is caught by the `except CanvasAPIError`
clause at line 248 and recorded, with no retry of either fetch. -/
def sync_single_user (fetch_assignments : Nat → Except CanvasFailure (List Sync.CanvasAssignment))
    (fetch_courses : Nat → Except CanvasFailure (List String)) : SyncAttemptLog :=
  match fetch_assignments 0 with
  | Except.error CanvasFailure.token_invalid =>
    { success := false, error := some SyncError.invalid_token, assignment_fetches := 1 }
  | Except.error _ =>
    { success := false, error := some SyncError.canvas_api_error, assignment_fetches := 1 }
  | Except.ok _ =>
    match fetch_courses 0 with
    | Except.error CanvasFailure.token_invalid =>
      { success := false, error := some SyncError.invalid_token, assignment_fetches := 1 }
    | Except.error _ =>
      { success := false, error := some SyncError.canvas_api_error, assignment_fetches := 1 }
    | Except.ok _ =>
      { success := true, error := none, assignment_fetches := 1 }

/-- The per-request body of canvas_api.py `batch_request_with_rate_limit`
(lines 614-629): run the request; on RateLimitError wait and run it exactly
once more, any failure of the retry yielding None; any other failure of the
first run yields None immediately. -/
def run_with_rate_limit_retry {α : Type} (request : Nat → Except CanvasFailure α) : Option α :=
  match request 0 with
  | Except.ok r => some r
  | Except.error CanvasFailure.rate_limit =>
    match request 1 with
    | Except.ok r => some r
    | Except.error _ => none
  | Except.error _ => none

/-- canvas_api.py `batch_request_with_rate_limit` (lines 601-635), the
inter-request delays dropped: one result slot per request. -/
def batch_request_with_rate_limit {α : Type} (requests_list : List (Nat → Except CanvasFailure α)) :
    List (Option α) :=
  requests_list.map (fun request => run_with_rate_limit_retry request)

end Gateway

/-! Concrete instances used by the theorems below. -/

namespace Fixtures

/-- The free-tier task of the spec's concrete scenario: due at
2025-01-10T12:00:00Z, which is 1736510400 in epoch seconds, nothing sent
yet. -/
def scenario_task : Reminders.Task :=
  { due_date := 1736510400, is_completed := false, is_deleted := false,
    reminder_1_week_sent := false, reminder_3_days_sent := false,
    reminder_1_day_sent := false, reminder_8_hours_sent := false,
    reminder_2_hours_sent := false, reminder_1_hour_sent := false }

/-- A free-tier user with notifications enabled. -/
def scenario_user : User :=
  { id := 1, messenger_id := "user-free", subscription_tier := SubscriptionTier.free,
    subscription_expiry_date := none, reminder_enabled := true, is_active := true,
    manual_tasks_this_month := 0, month_reset_date := 0 }

/-- A user whose stored tier is premium but whose subscription expired at
time 90 - not an active premium subscription at time 100. -/
def premium_expired_user : User :=
  { id := 2, messenger_id := "user-expired", subscription_tier := SubscriptionTier.premium,
    subscription_expiry_date := some 90, reminder_enabled := true, is_active := true,
    manual_tasks_this_month := 0, month_reset_date := 0 }

/-- A premium-tier user with its account deactivated whose subscription
expired at time 99. -/
def inactive_expired_user : User :=
  { id := 3, messenger_id := "user-inactive", subscription_tier := SubscriptionTier.premium,
    subscription_expiry_date := some 99, reminder_enabled := true, is_active := false,
    manual_tasks_this_month := 0, month_reset_date := 0 }

/-- An active premium user whose expiry, 999, is one second before the
sweep time 1000. -/
def expiry_before_user : User :=
  { id := 4, messenger_id := "user-before", subscription_tier := SubscriptionTier.premium,
    subscription_expiry_date := some 999, reminder_enabled := true, is_active := true,
    manual_tasks_this_month := 0, month_reset_date := 0 }

/-- An active premium user whose expiry, 1001, is one second after the
sweep time 1000. -/
def expiry_after_user : User :=
  { id := 5, messenger_id := "user-after", subscription_tier := SubscriptionTier.premium,
    subscription_expiry_date := some 1001, reminder_enabled := true, is_active := true,
    manual_tasks_this_month := 0, month_reset_date := 0 }

/-- A premium user used to exercise the window-selection loop with the
2-hour and 1-hour windows simultaneously in tolerance. -/
def boundary_user : User :=
  { id := 6, messenger_id := "user-boundary", subscription_tier := SubscriptionTier.premium,
    subscription_expiry_date := some 1000000, reminder_enabled := true, is_active := true,
    manual_tasks_this_month := 0, month_reset_date := 0 }

/-- A task due at 5400: at time 0 both the 2-hour window (target -1800)
and the 1-hour window (target 1800) are exactly at the 1800-second
tolerance edge. -/
def boundary_task : Reminders.Task :=
  { scenario_task with due_date := 5400 }

/-- A task whose due date, now + 23 hours, sits inside the query band of
the "1_day" reminder type but a full hour away from the 24-hour target. -/
def band_edge_task : Reminders.Task :=
  { scenario_task with due_date := 82800 }

/-- A mirrored Canvas task: id 1, upstream assignment "A", title "old",
due "D". -/
def mirror_a : Sync.MirrorTask :=
  { id := 1, canvas_assignment_id := some "A", title := "old",
    due_date := some "D", is_completed := false, is_deleted := false,
    reminder_1_week_sent := false, reminder_3_days_sent := false,
    reminder_1_day_sent := false, reminder_8_hours_sent := false,
    reminder_2_hours_sent := false, reminder_1_hour_sent := false }

/-- A snapshot in which assignment "A" changed title to "new" but kept the
due timestamp "D". -/
def snapshot_title_only : List Sync.CanvasAssignment :=
  [{ id := "A", name := some "new", due_at := some "D" }]

/-- A snapshot in which assignment "A" moved its due timestamp to "E". -/
def snapshot_due_moved : List Sync.CanvasAssignment :=
  [{ id := "A", name := some "new", due_at := some "E" }]

/-- An assignment fetch that is rate-limited on its first invocation and
succeeds on its second. -/
def rate_limited_once :
    Nat → Except Gateway.CanvasFailure (List Sync.CanvasAssignment) :=
  fun n => if n = 0 then Except.error Gateway.CanvasFailure.rate_limit else Except.ok []

/-- A course fetch that always succeeds. -/
def courses_ok : Nat → Except Gateway.CanvasFailure (List String) :=
  fun _ => Except.ok []

end Fixtures

/-! Helper lemmas about the reminder scheduler. -/

namespace Reminders

theorem run_sent_le_one (send : ReminderWindow → Bool) (ws : List ReminderWindow)
    (task : Task) (now : Int) : (run_task_windows send ws task now).sent ≤ 1 := by
  induction ws with
  | nil => simp [run_task_windows]
  | cons w rest ih =>
    simp only [run_task_windows]
    split
    · split <;> simp
    · exact ih

theorem run_attempted_eq_find (send : ReminderWindow → Bool) (ws : List ReminderWindow)
    (task : Task) (now : Int) :
    (run_task_windows send ws task now).attempted
      = ws.find? (fun w => should_send_reminder task w now) := by
  induction ws with
  | nil => rfl
  | cons w rest ih =>
    simp only [run_task_windows]
    cases h : should_send_reminder task w now with
    | false => simp [h, ih, List.find?_cons]
    | true => cases send w <;> simp [h, List.find?_cons]

theorem run_task_state (send : ReminderWindow → Bool) (ws : List ReminderWindow)
    (task : Task) (now : Int) :
    (run_task_windows send ws task now).task = task
    ∨ ∃ w, (run_task_windows send ws task now).attempted = some w
        ∧ (run_task_windows send ws task now).task = update_task_last_reminder w.name task := by
  induction ws with
  | nil => exact Or.inl rfl
  | cons w rest ih =>
    simp only [run_task_windows]
    cases h : should_send_reminder task w now with
    | false => simpa [h] using ih
    | true =>
      cases hs : send w with
      | false => exact Or.inl rfl
      | true => exact Or.inr ⟨w, rfl, rfl⟩

theorem getMarker_setMarker (t : Task) (m m2 : Marker) :
    (t.setMarker m).getMarker m2 = if m2 = m then true else t.getMarker m2 := by
  cases m <;> cases m2 <;> simp [Task.setMarker, Task.getMarker]

theorem update_marker_preserved (window_name : String) (t : Task) (m : Marker)
    (h : marker_for_window window_name ≠ some m) :
    (update_task_last_reminder window_name t).getMarker m = t.getMarker m := by
  unfold update_task_last_reminder
  cases hm : marker_for_window window_name with
  | none => rfl
  | some m1 =>
    rw [getMarker_setMarker]
    have hne : m ≠ m1 := by
      intro e
      exact h (by rw [hm, e])
    simp [hne]

theorem update_due_preserved (window_name : String) (t : Task) :
    (update_task_last_reminder window_name t).due_date = t.due_date := by
  unfold update_task_last_reminder
  cases marker_for_window window_name with
  | none => rfl
  | some m => cases m <;> rfl

theorem should_send_due_only (t1 t2 : Task) (w : ReminderWindow) (now : Int)
    (h : t1.due_date = t2.due_date) :
    should_send_reminder t1 w now = should_send_reminder t2 w now := by
  simp [should_send_reminder, h]

theorem available_windows_sorted (u : User) :
    (available_windows u).Pairwise (fun a b => b.hours_before ≤ a.hours_before) := by
  unfold available_windows
  split <;> decide

theorem query_filter_band_form (now : Int) (reminder_type : String) (t : Task) (u : User)
    (lo hi : Int) (hband : reminder_query_band now reminder_type = some (lo, hi))
    (hours : Int) (radius : Nat)
    (hlo : lo = now + hours * 3600 - radius) (hhi : hi = now + hours * 3600 + radius) :
    reminder_query_filter now reminder_type t u
      = (!t.is_deleted && !t.is_completed
          && decide ((t.due_date - (now + hours * 3600)).natAbs ≤ radius)
          && u.is_active && u.reminder_enabled
          && marker_unsent reminder_type t && tier_filter reminder_type u) := by
  subst hlo hhi
  simp only [reminder_query_filter, hband]
  rw [Bool.eq_iff_iff]
  simp only [Bool.and_eq_true, decide_eq_true_eq, and_assoc]
  constructor
  · rintro ⟨h1, h2, h3, h4, h5, h6, h7, h8⟩
    exact ⟨h1, h2, by omega, h5, h6, h7, h8⟩
  · rintro ⟨h1, h2, h3, h4, h5, h6, h7⟩
    exact ⟨h1, h2, by omega, by omega, h4, h5, h6, h7⟩

theorem find_first_hours_ge {p : ReminderWindow → Bool} :
    ∀ {l : List ReminderWindow},
      l.Pairwise (fun a b => b.hours_before ≤ a.hours_before) →
      ∀ {x w : ReminderWindow}, l.find? p = some x → w ∈ l → p w = true →
        w.hours_before ≤ x.hours_before := by
  intro l hl
  induction l with
  | nil => intro x w hx; simp at hx
  | cons a rest ih =>
    intro x w hx hw hpw
    cases hpa : p a with
    | true =>
      rw [List.find?_cons_of_pos _ hpa, Option.some_inj] at hx
      subst hx
      rcases List.mem_cons.mp hw with rfl | hw2
      · exact le_refl _
      · exact (List.pairwise_cons.mp hl).1 w hw2
    | false =>
      rw [List.find?_cons_of_neg _ (by simp [hpa])] at hx
      rcases List.mem_cons.mp hw with rfl | hw2
      · rw [hpa] at hpw; cases hpw
      · exact ih (List.pairwise_cons.mp hl).2 hx hw2 hpw

end Reminders

/-! Claim theorems for the reminder scheduler. -/

/-- C1: the claim says a second invocation inside the same tolerance band
dispatches nothing because `should_send_reminder` consults the persisted
per-window sent-marker and finds it true.  The code does the opposite: in
the spec's own scenario (task due 2025-01-10T12:00:00Z, free tier), the
first invocation at 2025-01-09T12:05:00Z dispatches and persists the
24-hour marker, `should_send_reminder` still returns true on the marked
task five minutes later, and the second invocation at 2025-01-09T12:10:00Z
dispatches again - the guard at send_reminders.py lines 184-189 reads
`last_*_reminder` attributes that no Task column provides, so the
persisted `reminder_*_sent` booleans are never consulted. -/
theorem C1_second_invocation_dispatches_again :
    (Reminders.process_task (fun _ => true) Fixtures.scenario_user
        Fixtures.scenario_task 1736424300).sent = 1
  ∧ (Reminders.process_task (fun _ => true) Fixtures.scenario_user
        Fixtures.scenario_task 1736424300).task.reminder_1_day_sent = true
  ∧ Reminders.should_send_reminder
        { Fixtures.scenario_task with reminder_1_day_sent := true }
        { name := "24_hour", hours_before := 24 } 1736424600 = true
  ∧ (Reminders.process_task (fun _ => true) Fixtures.scenario_user
        (Reminders.process_task (fun _ => true) Fixtures.scenario_user
          Fixtures.scenario_task 1736424300).task 1736424600).sent = 1 := by
  decide

/-- C2: the claim's selection policy never runs as described.  The loop
(send_reminders.py lines 260-287) does stop at the first window whose
due-check passes, and PREMIUM_TIER_WINDOWS is listed in the claimed
descending order (168, 72, 24, 8, 2, 1) - but the tier branch at line 254
compares the SubscriptionTier enum member with the string 'premium',
which is False for every user, so the premium list is never examined: at
the failing input (an active premium user's task due at 5400 seen at
time 0, when both the 2-hour and the 1-hour premium windows are exactly
in tolerance) the loop walks only the free-tier 24-hour list and
dispatches nothing, where the claim promises a dispatch of the
furthest-out eligible window (the 2-hour one). -/
theorem C2_premium_selection_never_runs :
    Fixtures.boundary_user.subscription_tier = SubscriptionTier.premium
  ∧ Fixtures.boundary_user.is_premium 0 = true
  ∧ Reminders.should_send_reminder Fixtures.boundary_task
      { name := "2_hours", hours_before := 2 } 0 = true
  ∧ Reminders.should_send_reminder Fixtures.boundary_task
      { name := "1_hour", hours_before := 1 } 0 = true
  ∧ Reminders.PREMIUM_TIER_WINDOWS.map (fun w => w.hours_before) = [168, 72, 24, 8, 2, 1]
  ∧ Reminders.available_windows Fixtures.boundary_user = Reminders.FREE_TIER_WINDOWS
  ∧ (Reminders.process_task (fun _ => true) Fixtures.boundary_user
      Fixtures.boundary_task 0).attempted = none
  ∧ (Reminders.process_task (fun _ => true) Fixtures.boundary_user
      Fixtures.boundary_task 0).sent = 0 := by
  decide

/-- C3 counterexample: the six premium windows are not applied exactly to
active-premium users - they are applied to nobody in the scheduler loop,
and the query layer grants the premium-only reminder types from the
stored tier alone.  An active premium user (stored tier premium, now
before expiry) still gets only the free-tier 24-hour list from the loop,
because the enum-to-string comparison at send_reminders.py line 254 is
always False; and a premium-stored user whose subscription has expired
still passes the query layer's "1_week" tier filter. -/
theorem C3_counterexample :
    Fixtures.boundary_user.is_premium 0 = true
  ∧ Reminders.available_windows Fixtures.boundary_user = Reminders.FREE_TIER_WINDOWS
  ∧ Reminders.FREE_TIER_WINDOWS.map (fun w => w.hours_before) = [24]
  ∧ Fixtures.premium_expired_user.is_premium 100 = false
  ∧ Reminders.tier_filter "1_week" Fixtures.premium_expired_user = true := by
  decide

/-- C3 amended: the scheduler loop's tier branch is dead - the
enum-to-string comparison of send_reminders.py line 254 holds for no
user - so every task, the active-premium user's included, is considered
only for the single 24-hours-before window there; the six-window premium
set survives only in the query layer, where the reminder types other than
"1_day" are restricted to users whose stored tier is premium; and the
expiry date is consulted nowhere in the reminder path. -/
theorem C3_tier_branch_dead (u : User) :
    Reminders.available_windows u = Reminders.FREE_TIER_WINDOWS
  ∧ Reminders.FREE_TIER_WINDOWS.map (fun w => w.hours_before) = [24]
  ∧ Reminders.PREMIUM_TIER_WINDOWS.map (fun w => w.hours_before) = [168, 72, 24, 8, 2, 1]
  ∧ (∀ reminder_type, reminder_type ≠ "1_day" →
      Reminders.tier_filter reminder_type u
        = decide (u.subscription_tier = SubscriptionTier.premium))
  ∧ Reminders.tier_filter "1_day" u = true
  ∧ (∀ reminder_type e1 e2,
      Reminders.tier_filter reminder_type { u with subscription_expiry_date := e1 }
        = Reminders.tier_filter reminder_type { u with subscription_expiry_date := e2 })
  ∧ (∀ e1 e2, Reminders.available_windows { u with subscription_expiry_date := e1 }
      = Reminders.available_windows { u with subscription_expiry_date := e2 }) := by
  refine ⟨rfl, by decide, by decide, ?_, by simp [Reminders.tier_filter], ?_, ?_⟩
  · intro reminder_type h
    simp [Reminders.tier_filter, h]
  · intro reminder_type e1 e2
    simp [Reminders.tier_filter]
  · intro e1 e2
    rfl

/-- C3 witness: the query layer's "1_week" entitlement of the
expired-premium user comes from the stored tier alone. -/
theorem C3_tier_branch_dead_witness :
    Reminders.tier_filter "1_week" Fixtures.premium_expired_user
      = decide (Fixtures.premium_expired_user.subscription_tier
          = SubscriptionTier.premium) :=
  (C3_tier_branch_dead Fixtures.premium_expired_user).2.2.2.1 "1_week" (by decide)

/-- C8 counterexample: the query layer's "1_day" band is a full hour wide
on each side, not the claimed 30 minutes - a task due at now + 23h passes
the pre-filter although it is 3600 seconds away from the 24-hour target -
and `should_send_reminder` judges a window due even when the task is
completed and the window's sent-marker is already true, so the claimed
"due exactly when in tolerance AND marker false AND not completed/deleted"
does not describe the due-judgment. -/
theorem C8_counterexample :
    Reminders.reminder_query_filter 0 "1_day" Fixtures.band_edge_task
        Fixtures.scenario_user = true
  ∧ ¬ (((0 : Int) - (Fixtures.band_edge_task.due_date - 24 * 3600)).natAbs ≤ 1800)
  ∧ Reminders.should_send_reminder
        { Fixtures.band_edge_task with is_completed := true, reminder_1_day_sent := true }
        { name := "24_hours", hours_before := 24 } (-3600) = true := by
  decide

/-- C8 amended: `should_send_reminder` judges a window due exactly when
now is within 1800 seconds of due minus hours_before, consulting only the
due date; the query layer separately pre-filters to non-completed,
non-deleted tasks of active, notification-enabled users with the window's
sent-marker false and the due date within the window's band, whose
half-width is 3600 seconds for every reminder type except "1_hour",
whose band is 1800 seconds around the one-hour target. -/
theorem C8_due_judgment_and_query_band (t : Reminders.Task)
    (w : Reminders.ReminderWindow) (now : Int) :
    Reminders.should_send_reminder t w now
      = decide ((now - (t.due_date - w.hours_before * 3600)).natAbs ≤ 1800)
  ∧ (∀ t2 : Reminders.Task, t2.due_date = t.due_date →
      Reminders.should_send_reminder t2 w now = Reminders.should_send_reminder t w now)
  ∧ (∀ reminder_type hours (u : User),
      Reminders.reminder_type_hours reminder_type = some hours →
      Reminders.reminder_query_filter now reminder_type t u
        = (!t.is_deleted && !t.is_completed
            && decide ((t.due_date - (now + hours * 3600)).natAbs
                ≤ (if reminder_type = "1_hour" then (1800 : Nat) else 3600))
            && u.is_active && u.reminder_enabled
            && Reminders.marker_unsent reminder_type t
            && Reminders.tier_filter reminder_type u)) := by
  refine ⟨?_, fun t2 h => Reminders.should_send_due_only t2 t w now h, ?_⟩
  · simp only [Reminders.should_send_reminder]
    cases h : decide ((now - (t.due_date - w.hours_before * 3600)).natAbs ≤ 1800) <;>
      simp [h]
  · intro reminder_type hours u hrt
    by_cases h1 : reminder_type = "1_week"
    · subst h1
      rw [show Reminders.reminder_type_hours "1_week" = some 168 from rfl,
        Option.some_inj] at hrt
      subst hrt
      rw [show (if ("1_week" : String) = "1_hour" then (1800 : Nat) else 3600) = 3600 from rfl]
      exact Reminders.query_filter_band_form now "1_week" t u _ _ rfl 168 3600
        (by omega) (by omega)
    by_cases h2 : reminder_type = "3_days"
    · subst h2
      rw [show Reminders.reminder_type_hours "3_days" = some 72 from rfl,
        Option.some_inj] at hrt
      subst hrt
      rw [show (if ("3_days" : String) = "1_hour" then (1800 : Nat) else 3600) = 3600 from rfl]
      exact Reminders.query_filter_band_form now "3_days" t u _ _ rfl 72 3600
        (by omega) (by omega)
    by_cases h3 : reminder_type = "1_day"
    · subst h3
      rw [show Reminders.reminder_type_hours "1_day" = some 24 from rfl,
        Option.some_inj] at hrt
      subst hrt
      rw [show (if ("1_day" : String) = "1_hour" then (1800 : Nat) else 3600) = 3600 from rfl]
      exact Reminders.query_filter_band_form now "1_day" t u _ _ rfl 24 3600
        (by omega) (by omega)
    by_cases h4 : reminder_type = "8_hours"
    · subst h4
      rw [show Reminders.reminder_type_hours "8_hours" = some 8 from rfl,
        Option.some_inj] at hrt
      subst hrt
      rw [show (if ("8_hours" : String) = "1_hour" then (1800 : Nat) else 3600) = 3600 from rfl]
      exact Reminders.query_filter_band_form now "8_hours" t u _ _ rfl 8 3600
        (by omega) (by omega)
    by_cases h5 : reminder_type = "2_hours"
    · subst h5
      rw [show Reminders.reminder_type_hours "2_hours" = some 2 from rfl,
        Option.some_inj] at hrt
      subst hrt
      rw [show (if ("2_hours" : String) = "1_hour" then (1800 : Nat) else 3600) = 3600 from rfl]
      exact Reminders.query_filter_band_form now "2_hours" t u _ _ rfl 2 3600
        (by omega) (by omega)
    by_cases h6 : reminder_type = "1_hour"
    · subst h6
      rw [show Reminders.reminder_type_hours "1_hour" = some 1 from rfl,
        Option.some_inj] at hrt
      subst hrt
      rw [show (if ("1_hour" : String) = "1_hour" then (1800 : Nat) else 3600) = 1800 from rfl]
      exact Reminders.query_filter_band_form now "1_hour" t u _ _ rfl 1 1800
        (by omega) (by omega)
    · exfalso
      simp only [Reminders.reminder_type_hours, if_neg h1, if_neg h2, if_neg h3,
        if_neg h4, if_neg h5, if_neg h6] at hrt
      exact Option.noConfusion hrt

/-- C8 witness: the amended characterization applied to the band-edge
task - completion status does not change the due-judgment, and the
"1_day" pre-filter accepts the task due a full hour from the 24-hour
target. -/
theorem C8_due_judgment_and_query_band_witness :
    Reminders.should_send_reminder
        { Fixtures.band_edge_task with is_completed := true }
        { name := "24_hours", hours_before := 24 } 500
      = Reminders.should_send_reminder Fixtures.band_edge_task
        { name := "24_hours", hours_before := 24 } 500
  ∧ Reminders.reminder_query_filter 0 "1_day" Fixtures.band_edge_task
      Fixtures.scenario_user = true :=
  ⟨(C8_due_judgment_and_query_band Fixtures.band_edge_task
      { name := "24_hours", hours_before := 24 } 500).2.1
      { Fixtures.band_edge_task with is_completed := true } rfl,
   ((C8_due_judgment_and_query_band Fixtures.band_edge_task
      { name := "24_hours", hours_before := 24 } 0).2.2 "1_day" 24
      Fixtures.scenario_user rfl).trans (by decide)⟩

/-! Helper lemmas about the expiry sweep. -/

namespace Expiry

theorem downgrade_user_id (u : User) : (downgrade_user u).id = u.id := rfl

theorem any_id_after_revert (l : List User) (uid k : Nat) :
    ((l.map (fun u => if u.id = uid then downgrade_user u else u)).any
        (fun v => v.id = k))
      = l.any (fun v => v.id = k) := by
  induction l with
  | nil => rfl
  | cons a l ih =>
    simp only [List.map_cons, List.any_cons, ih]
    by_cases h : a.id = uid <;> simp [h, downgrade_user]

theorem process_one_db (send : String → Bool) (st : SweepState) (u : User) :
    (process_one_expired_user send st u).db
      = st.db.map (fun v => if v.id = u.id then downgrade_user v else v) := by
  simp only [process_one_expired_user, revert_user_to_free]
  split <;> rfl

theorem sweep_db (send : String → Bool) (es : List User) :
    ∀ st : SweepState,
      (es.foldl (process_one_expired_user send) st).db
        = st.db.map (fun v => if es.any (fun u => u.id = v.id) then downgrade_user v else v) := by
  induction es with
  | nil => intro st; simp
  | cons u es ih =>
    intro st
    rw [List.foldl_cons, ih, process_one_db, List.map_map]
    apply List.map_congr_left
    intro v _
    simp only [Function.comp_apply, List.any_cons]
    by_cases hv : v.id = u.id
    · have hv2 : u.id = v.id := hv.symm
      simp only [if_pos hv, hv2, decide_True, Bool.true_or, if_pos rfl]
      have : (downgrade_user v).id = v.id := rfl
      by_cases hrest : es.any (fun w => w.id = (downgrade_user v).id) = true
      · rw [this] at hrest
        simp [hrest, downgrade_user]
      · rw [this] at hrest
        simp [hrest, downgrade_user]
    · have hv2 : ¬ u.id = v.id := fun e => hv e.symm
      simp [if_neg hv, hv2]

theorem sweep_notified (send : String → Bool) (es : List User) :
    ∀ st : SweepState, (∀ u ∈ es, st.db.any (fun v => v.id = u.id) = true) →
      (es.foldl (process_one_expired_user send) st).notified
        = st.notified ++ es.map (fun u => u.messenger_id) := by
  induction es with
  | nil => intro st _; simp
  | cons u es ih =>
    intro st hmem
    rw [List.foldl_cons]
    have hu : (revert_user_to_free st.db u.id).2 = true := by
      simpa [revert_user_to_free] using hmem u (List.mem_cons_self u es)
    have hone : (process_one_expired_user send st u).notified
        = st.notified ++ [u.messenger_id] := by
      simp [process_one_expired_user, hu]
    have hdb : ∀ u2 ∈ es, (process_one_expired_user send st u).db.any
        (fun v => v.id = u2.id) = true := by
      intro u2 hu2
      rw [process_one_db, any_id_after_revert]
      exact hmem u2 (List.mem_cons_of_mem u hu2)
    rw [ih (process_one_expired_user send st u) hdb, hone]
    simp

theorem sweep_send_independent (send1 send2 : String → Bool) (es : List User) :
    ∀ st1 st2 : SweepState, st1.db = st2.db → st1.reverted_count = st2.reverted_count →
      st1.notified = st2.notified →
      ((es.foldl (process_one_expired_user send1) st1).db
          = (es.foldl (process_one_expired_user send2) st2).db
        ∧ (es.foldl (process_one_expired_user send1) st1).reverted_count
          = (es.foldl (process_one_expired_user send2) st2).reverted_count
        ∧ (es.foldl (process_one_expired_user send1) st1).notified
          = (es.foldl (process_one_expired_user send2) st2).notified) := by
  induction es with
  | nil => intro st1 st2 h1 h2 h3; exact ⟨h1, h2, h3⟩
  | cons u es ih =>
    intro st1 st2 h1 h2 h3
    rw [List.foldl_cons, List.foldl_cons]
    apply ih
    · rw [process_one_db, process_one_db, h1]
    · simp only [process_one_expired_user, revert_user_to_free, h1, h2]
      split <;> rfl
    · simp only [process_one_expired_user, revert_user_to_free, h1, h3]
      split <;> rfl

end Expiry

/-! Helper lemmas about the reconciliation job. -/

namespace Sync

theorem foldl_map_fusion {ι : Type} (l : List ι) (db : List MirrorTask)
    (step : List MirrorTask → ι → List MirrorTask) (h : ι → MirrorTask → MirrorTask)
    (hstep : ∀ acc i, step acc i = acc.map (h i)) :
    l.foldl step db = db.map (fun t => l.foldl (fun u i => h i u) t) := by
  induction l generalizing db with
  | nil => simp
  | cons a l ih =>
    rw [List.foldl_cons, hstep, ih, List.map_map]
    rfl

theorem foldl_id_of_fix {ι : Type} (l : List ι) (h : ι → MirrorTask → MirrorTask)
    (t : MirrorTask)
    (hfix : ∀ i ∈ l, ∀ u : MirrorTask, u.id = t.id → h i u = u) :
    l.foldl (fun u i => h i u) t = t := by
  induction l with
  | nil => rfl
  | cons a l ih =>
    rw [List.foldl_cons, hfix a (List.mem_cons_self a l) t rfl]
    exact ih (fun i hi u hu => hfix i (List.mem_cons_of_mem a hi) u hu)

theorem foldl_single_fire {ι : Type} (l : List ι)
    (h : ι → MirrorTask → MirrorTask) (t : MirrorTask) (i : ι)
    (hmem : i ∈ l) (hnd : l.Nodup)
    (hothers : ∀ j ∈ l, j ≠ i → ∀ u : MirrorTask, u.id = t.id → h j u = u)
    (hpres : (h i t).id = t.id) :
    l.foldl (fun u j => h j u) t = h i t := by
  obtain ⟨s, r, rfl⟩ := List.append_of_mem hmem
  have hnds := List.nodup_append.mp hnd
  have his : i ∉ s := fun hmem2 => hnds.2.2 hmem2 (List.mem_cons_self i r)
  have hir : i ∉ r := (List.nodup_cons.mp hnds.2.1).1
  rw [List.foldl_append, List.foldl_cons]
  rw [foldl_id_of_fix s h t
    (fun j hj u hu => hothers j (List.mem_append.mpr (Or.inl hj))
      (fun e => his (e ▸ hj)) u hu)]
  exact foldl_id_of_fix r h (h i t)
    (fun j hj u hu => hothers j
      (List.mem_append.mpr (Or.inr (List.mem_cons_of_mem i hj)))
      (fun e => hir (e ▸ hj)) u (hu.trans hpres))

theorem find_unique_caid :
    ∀ l : List MirrorTask,
      (l.filterMap (fun t => t.canvas_assignment_id)).Nodup →
      ∀ {t : MirrorTask} {i : String}, t ∈ l → t.canvas_assignment_id = some i →
        l.find? (fun u => u.canvas_assignment_id = some i) = some t := by
  intro l
  induction l with
  | nil =>
    intro _ t i ht _
    cases ht
  | cons a l ih =>
    intro hnd t i ht hi
    by_cases ha : a.canvas_assignment_id = some i
    · have hfind : (a :: l).find? (fun u => u.canvas_assignment_id = some i) = some a :=
        List.find?_cons_of_pos _ (by simp [ha])
      rcases List.mem_cons.mp ht with rfl | htl
      · exact hfind
      · exfalso
        have h1 : (a :: l).filterMap (fun t => t.canvas_assignment_id)
            = i :: l.filterMap (fun t => t.canvas_assignment_id) := by
          simp [List.filterMap_cons, ha]
        rw [h1] at hnd
        exact (List.nodup_cons.mp hnd).1 (List.mem_filterMap.mpr ⟨t, htl, hi⟩)
    · have hfind : (a :: l).find? (fun u => u.canvas_assignment_id = some i)
          = l.find? (fun u => u.canvas_assignment_id = some i) :=
        List.find?_cons_of_neg _ (by simp [ha])
      rcases List.mem_cons.mp ht with rfl | htl
      · exact absurd hi ha
      · rw [hfind]
        refine ih ?_ htl hi
        cases hc : a.canvas_assignment_id with
        | none =>
          have h1 : (a :: l).filterMap (fun t => t.canvas_assignment_id)
              = l.filterMap (fun t => t.canvas_assignment_id) := by
            simp [List.filterMap_cons, hc]
          rwa [h1] at hnd
        | some j =>
          have h1 : (a :: l).filterMap (fun t => t.canvas_assignment_id)
              = j :: l.filterMap (fun t => t.canvas_assignment_id) := by
            simp [List.filterMap_cons, hc]
          rw [h1] at hnd
          exact (List.nodup_cons.mp hnd).2

theorem lookup_isSome_of_mem (canvas : List CanvasAssignment) (i : String)
    (h : i ∈ canvas.map (fun a => a.id)) : (lookup_assignment canvas i).isSome := by
  rcases List.mem_map.mp h with ⟨a, ha, rfl⟩
  exact List.find?_isSome.mpr ⟨a, List.mem_reverse.mpr ha, by simp⟩

theorem lookup_eq_none_of_not_mem (canvas : List CanvasAssignment) (i : String)
    (h : ¬ i ∈ canvas.map (fun a => a.id)) : lookup_assignment canvas i = none := by
  cases hl : lookup_assignment canvas i with
  | none => rfl
  | some a =>
    exfalso
    apply h
    have hmem := List.mem_of_find?_eq_some hl
    have hp := List.find?_some hl
    exact List.mem_map.mpr ⟨a, List.mem_reverse.mp hmem, by simpa using hp⟩

theorem created_map_caid (canvas : List CanvasAssignment) :
    ∀ l : List String, (∀ i ∈ l, (lookup_assignment canvas i).isSome) →
      (l.filterMap (fun i => (lookup_assignment canvas i).map (fun a =>
          ({ canvas_assignment_id := i, title := a.name.getD "Untitled Assignment",
             due_date := a.due_at } : TaskData)))).map (fun d => d.canvas_assignment_id)
        = l := by
  intro l
  induction l with
  | nil => intro _; rfl
  | cons i l ih =>
    intro hall
    rw [List.filterMap_cons]
    cases hl : lookup_assignment canvas i with
    | none => exact absurd (hall i (List.mem_cons_self i l)) (by simp [hl])
    | some a =>
      simp only [hl, Option.map_some']
      rw [List.map_cons]
      rw [ih (fun j hj => hall j (List.mem_cons_of_mem i hj))]

theorem sync_db_eq_map (db : List MirrorTask) (canvas : List CanvasAssignment)
    (hids : (db.map (fun t => t.id)).Nodup)
    (hca : ((get_user_canvas_tasks db).filterMap (fun t => t.canvas_assignment_id)).Nodup) :
    (sync_user_assignments db canvas).db = db.map (reconcile_expected canvas) := by
  set ex := get_user_canvas_tasks db with hex
  set exIds := (ex.filterMap (fun t => t.canvas_assignment_id)).dedup with hexIds
  set cIds := (canvas.map (fun a => a.id)).dedup with hcIds
  set bothIds := cIds.filter (fun i => exIds.contains i) with hboth
  set delIds := exIds.filter (fun i => !cIds.contains i) with hdelIds
  have h0 : (sync_user_assignments db canvas).db
      = ex.foldl
          (fun acc t0 =>
            match t0.canvas_assignment_id with
            | some i => if delIds.contains i then delete_task acc t0.id else acc
            | none => acc)
          (bothIds.foldl
            (fun acc i =>
              match lookup_assignment canvas i,
                    ex.find? (fun t => t.canvas_assignment_id = some i) with
              | some a, some t =>
                if due_differs a t then update_task acc t.id (a.name.getD t.title) a.due_at
                else acc
              | _, _ => acc)
            db) := rfl
  have hU : ∀ (acc : List MirrorTask) (i : String),
      (match lookup_assignment canvas i,
             ex.find? (fun t => t.canvas_assignment_id = some i) with
       | some a, some t =>
         if due_differs a t then update_task acc t.id (a.name.getD t.title) a.due_at
         else acc
       | _, _ => acc)
        = acc.map (upd_step ex canvas i) := by
    intro acc i
    unfold upd_step
    cases hl : lookup_assignment canvas i with
    | none => simp
    | some a =>
      cases hf : ex.find? (fun t => t.canvas_assignment_id = some i) with
      | none => simp
      | some t =>
        by_cases hdd : due_differs a t = true <;> simp [hdd, update_task]
  have hD : ∀ (acc : List MirrorTask) (t0 : MirrorTask),
      (match t0.canvas_assignment_id with
       | some i => if delIds.contains i then delete_task acc t0.id else acc
       | none => acc)
        = acc.map (del_step delIds t0) := by
    intro acc t0
    unfold del_step
    cases hc : t0.canvas_assignment_id with
    | none => simp
    | some i =>
      by_cases hcont : i ∈ delIds <;> simp [hcont, delete_task]
  have hdbNodup : db.Nodup := List.Nodup.of_map _ hids
  have hexsub : ∀ {t2 : MirrorTask}, t2 ∈ ex → t2 ∈ db := fun h2 =>
    List.mem_of_mem_filter h2
  have hinj : ∀ t1 ∈ db, ∀ t2 ∈ db, t1.id = t2.id → t1 = t2 :=
    fun t1 h1 t2 h2 he => List.inj_on_of_nodup_map hids h1 h2 he
  have hexNodup : ex.Nodup := hdbNodup.filter _
  rw [h0]
  rw [foldl_map_fusion bothIds db _ (upd_step ex canvas) hU]
  rw [foldl_map_fusion ex _ _ (del_step delIds) hD]
  rw [List.map_map]
  apply List.map_congr_left
  intro t ht
  simp only [Function.comp_apply]
  by_cases htex : t ∈ ex
  · have hmemf := List.mem_filter.mp htex
    have hflags := hmemf.2
    simp only [Bool.and_eq_true, Bool.not_eq_true'] at hflags
    have hnd2 : t.is_deleted = false := hflags.1
    obtain ⟨i, hsome⟩ := Option.isSome_iff_exists.mp hflags.2
    have hfind : ex.find? (fun u => u.canvas_assignment_id = some i) = some t :=
      find_unique_caid ex hca htex hsome
    by_cases hic : i ∈ canvas.map (fun a => a.id)
    · obtain ⟨a, hla⟩ := Option.isSome_iff_exists.mp (lookup_isSome_of_mem canvas i hic)
      have hiBoth : i ∈ bothIds := by
        rw [hboth]
        refine List.mem_filter.mpr ⟨?_, ?_⟩
        · rw [hcIds]; exact List.mem_dedup.mpr hic
        · have hmemex : i ∈ exIds := by
            rw [hexIds]
            exact List.mem_dedup.mpr (List.mem_filterMap.mpr ⟨t, htex, hsome⟩)
          exact List.elem_iff.mpr hmemex
      have hbothNodup : bothIds.Nodup := by
        rw [hboth, hcIds]
        exact (List.nodup_dedup _).filter _
      have hothersU : ∀ j ∈ bothIds, j ≠ i → ∀ u : MirrorTask, u.id = t.id →
          upd_step ex canvas j u = u := by
        intro j hj hji u hu
        unfold upd_step
        cases hlj : lookup_assignment canvas j with
        | none => rfl
        | some aj =>
          cases hfj : ex.find? (fun u2 => u2.canvas_assignment_id = some j) with
          | none => rfl
          | some tj =>
            by_cases hid : u.id = tj.id
            · exfalso
              have htjmem : tj ∈ ex := List.mem_of_find?_eq_some hfj
              have htjca : tj.canvas_assignment_id = some j := by
                simpa using List.find?_some hfj
              have hteq : tj = t := hinj tj (hexsub htjmem) t ht (hid.symm.trans hu)
              rw [hteq, hsome] at htjca
              exact hji (Option.some_inj.mp htjca).symm
            · by_cases hdd : due_differs aj tj = true <;> simp [hdd, hid]
      have hpresU : (upd_step ex canvas i t).id = t.id := by
        by_cases hdd : due_differs a t = true <;> simp [upd_step, hla, hfind, hdd]
      have hupd : bothIds.foldl (fun u j => upd_step ex canvas j u) t
          = upd_step ex canvas i t :=
        foldl_single_fire bothIds _ t i hiBoth hbothNodup hothersU hpresU
      have hval : upd_step ex canvas i t
          = if due_differs a t then
              { t with title := a.name.getD t.title, due_date := a.due_at }
            else t := by
        by_cases hdd : due_differs a t = true <;> simp [upd_step, hla, hfind, hdd]
      have hfixD : ∀ t0 ∈ ex, ∀ u : MirrorTask, u.id = (upd_step ex canvas i t).id →
          del_step delIds t0 u = u := by
        intro t0 ht0 u hu
        rw [hpresU] at hu
        unfold del_step
        cases hc0 : t0.canvas_assignment_id with
        | none => rfl
        | some i0 =>
          by_cases hcont : i0 ∈ delIds
          · by_cases hid0 : u.id = t0.id
            · exfalso
              have ht0eq : t0 = t := hinj t0 (hexsub ht0) t ht (hid0.symm.trans hu)
              rw [ht0eq, hsome] at hc0
              have hi0 : i0 = i := (Option.some_inj.mp hc0).symm
              subst hi0
              have hmemdel := hcont
              rw [hdelIds] at hmemdel
              have h2 := (List.mem_filter.mp hmemdel).2
              simp only [Bool.not_eq_true'] at h2
              have hmc : i0 ∈ cIds := by rw [hcIds]; exact List.mem_dedup.mpr hic
              simp [hmc] at h2
            · simp [hcont, hid0]
          · simp [hcont]
      have hdelid : ex.foldl (fun u t0 => del_step delIds t0 u) (upd_step ex canvas i t)
          = upd_step ex canvas i t :=
        foldl_id_of_fix ex _ _ hfixD
      rw [hupd, hdelid, hval]
      simp [reconcile_expected, hnd2, hsome, hla]
    · have hln : lookup_assignment canvas i = none := lookup_eq_none_of_not_mem canvas i hic
      have hfixU : ∀ j ∈ bothIds, ∀ u : MirrorTask, u.id = t.id →
          upd_step ex canvas j u = u := by
        intro j hj u hu
        unfold upd_step
        cases hlj : lookup_assignment canvas j with
        | none => rfl
        | some aj =>
          cases hfj : ex.find? (fun u2 => u2.canvas_assignment_id = some j) with
          | none => rfl
          | some tj =>
            by_cases hid : u.id = tj.id
            · exfalso
              have htjmem : tj ∈ ex := List.mem_of_find?_eq_some hfj
              have htjca : tj.canvas_assignment_id = some j := by
                simpa using List.find?_some hfj
              have hteq : tj = t := hinj tj (hexsub htjmem) t ht (hid.symm.trans hu)
              rw [hteq, hsome] at htjca
              have hji : j = i := (Option.some_inj.mp htjca).symm
              subst hji
              rw [hboth] at hj
              have hjc := (List.mem_filter.mp hj).1
              rw [hcIds] at hjc
              exact hic (List.mem_dedup.mp hjc)
            · by_cases hdd : due_differs aj tj = true <;> simp [hdd, hid]
      have hupd : bothIds.foldl (fun u j => upd_step ex canvas j u) t = t :=
        foldl_id_of_fix bothIds _ t hfixU
      have hiDel : i ∈ delIds := by
        rw [hdelIds]
        refine List.mem_filter.mpr ⟨?_, ?_⟩
        · rw [hexIds]
          exact List.mem_dedup.mpr (List.mem_filterMap.mpr ⟨t, htex, hsome⟩)
        · have hniC : ¬ i ∈ cIds := by
            rw [hcIds]
            exact fun hm => hic (List.mem_dedup.mp hm)
          cases hcc : cIds.contains i with
          | false => rfl
          | true => exact absurd (List.elem_iff.mp hcc) hniC
      have hothersD : ∀ t0 ∈ ex, t0 ≠ t → ∀ u : MirrorTask, u.id = t.id →
          del_step delIds t0 u = u := by
        intro t0 ht0 hne u hu
        unfold del_step
        cases hc0 : t0.canvas_assignment_id with
        | none => rfl
        | some i0 =>
          by_cases hcont : i0 ∈ delIds
          · by_cases hid0 : u.id = t0.id
            · exact absurd (hinj t0 (hexsub ht0) t ht (hid0.symm.trans hu)) hne
            · simp [hcont, hid0]
          · simp [hcont]
      have hpresD : (del_step delIds t t).id = t.id := by
        unfold del_step
        rw [hsome]
        by_cases hcont : i ∈ delIds <;> simp [hcont]
      have hdel1 : ex.foldl (fun u t0 => del_step delIds t0 u) t = del_step delIds t t :=
        foldl_single_fire ex _ t t htex hexNodup hothersD hpresD
      have hdval : del_step delIds t t = { t with is_deleted := true } := by
        unfold del_step
        rw [hsome]
        simp [hiDel]
      rw [hupd, hdel1, hdval]
      simp [reconcile_expected, hnd2, hsome, hln]
  · have hfixU : ∀ j ∈ bothIds, ∀ u : MirrorTask, u.id = t.id →
        upd_step ex canvas j u = u := by
      intro j hj u hu
      unfold upd_step
      cases hlj : lookup_assignment canvas j with
      | none => rfl
      | some aj =>
        cases hfj : ex.find? (fun u2 => u2.canvas_assignment_id = some j) with
        | none => rfl
        | some tj =>
          by_cases hid : u.id = tj.id
          · exfalso
            have htjmem : tj ∈ ex := List.mem_of_find?_eq_some hfj
            have hteq : tj = t := hinj tj (hexsub htjmem) t ht (hid.symm.trans hu)
            exact htex (hteq ▸ htjmem)
          · by_cases hdd : due_differs aj tj = true <;> simp [hdd, hid]
    have hfixD : ∀ t0 ∈ ex, ∀ u : MirrorTask, u.id = t.id →
        del_step delIds t0 u = u := by
      intro t0 ht0 u hu
      unfold del_step
      cases hc0 : t0.canvas_assignment_id with
      | none => rfl
      | some i0 =>
        by_cases hcont : i0 ∈ delIds
        · by_cases hid0 : u.id = t0.id
          · exfalso
            have ht0eq : t0 = t := hinj t0 (hexsub ht0) t ht (hid0.symm.trans hu)
            exact htex (ht0eq ▸ ht0)
          · simp [hcont, hid0]
        · simp [hcont]
    rw [foldl_id_of_fix bothIds _ t hfixU, foldl_id_of_fix ex _ t hfixD]
    by_cases hd : t.is_deleted = true
    · simp [reconcile_expected, hd]
    · have hdf : t.is_deleted = false := by simpa using hd
      have hcn : t.canvas_assignment_id = none := by
        cases hc : t.canvas_assignment_id with
        | none => rfl
        | some i =>
          exfalso
          apply htex
          rw [hex]
          unfold get_user_canvas_tasks
          exact List.mem_filter.mpr ⟨ht, by simp [hdf, hc]⟩
      simp [reconcile_expected, hdf, hcn]

theorem sync_created_count (db : List MirrorTask) (canvas : List CanvasAssignment)
    (i : String) :
    ((sync_user_assignments db canvas).created.map (fun d => d.canvas_assignment_id)).count i
      = if i ∈ canvas.map (fun a => a.id)
            ∧ ¬ i ∈ (get_user_canvas_tasks db).filterMap (fun t => t.canvas_assignment_id)
        then 1 else 0 := by
  have h0 : (sync_user_assignments db canvas).created
      = ((canvas.map (fun a => a.id)).dedup.filter
          (fun j => !(((get_user_canvas_tasks db).filterMap
              (fun t => t.canvas_assignment_id)).dedup.contains j))).filterMap
          (fun j => (lookup_assignment canvas j).map (fun a =>
            ({ canvas_assignment_id := j, title := a.name.getD "Untitled Assignment",
               due_date := a.due_at } : TaskData))) := rfl
  rw [h0, created_map_caid canvas _ (fun j hj =>
    lookup_isSome_of_mem canvas j (List.mem_dedup.mp (List.mem_filter.mp hj).1))]
  have hnd : ((canvas.map (fun a => a.id)).dedup.filter
      (fun j => !(((get_user_canvas_tasks db).filterMap
          (fun t => t.canvas_assignment_id)).dedup.contains j))).Nodup :=
    (List.nodup_dedup _).filter _
  have hiff : i ∈ (canvas.map (fun a => a.id)).dedup.filter
        (fun j => !(((get_user_canvas_tasks db).filterMap
            (fun t => t.canvas_assignment_id)).dedup.contains j))
      ↔ (i ∈ canvas.map (fun a => a.id)
          ∧ ¬ i ∈ (get_user_canvas_tasks db).filterMap (fun t => t.canvas_assignment_id)) := by
    rw [List.mem_filter]
    simp [List.mem_dedup]
  by_cases hmem : i ∈ canvas.map (fun a => a.id)
      ∧ ¬ i ∈ (get_user_canvas_tasks db).filterMap (fun t => t.canvas_assignment_id)
  · rw [if_pos hmem]
    exact List.count_eq_one_of_mem hnd (hiff.mpr hmem)
  · rw [if_neg hmem]
    exact List.count_eq_zero_of_not_mem (fun hc => hmem (hiff.mp hc))

theorem reconcile_expected_getMarker (canvas : List CanvasAssignment) (t : MirrorTask)
    (m : Marker) : (reconcile_expected canvas t).getMarker m = t.getMarker m := by
  by_cases hd : t.is_deleted = true
  · simp [reconcile_expected, hd]
  · have hdf : t.is_deleted = false := by simpa using hd
    cases hc : t.canvas_assignment_id with
    | none => simp [reconcile_expected, hdf, hc]
    | some i =>
      cases hl : lookup_assignment canvas i with
      | none =>
        simp only [reconcile_expected, hdf, hc, hl, Bool.false_eq_true, if_false]
        cases m <;> rfl
      | some a =>
        by_cases hdd : due_differs a t = true <;>
          simp only [reconcile_expected, hdf, hc, hl, hdd, Bool.false_eq_true, if_false] <;>
          (try (cases m <;> rfl))

theorem reconcile_expected_id (canvas : List CanvasAssignment) (t : MirrorTask) :
    (reconcile_expected canvas t).id = t.id := by
  by_cases hd : t.is_deleted = true
  · simp [reconcile_expected, hd]
  · have hdf : t.is_deleted = false := by simpa using hd
    cases hc : t.canvas_assignment_id with
    | none => simp [reconcile_expected, hdf, hc]
    | some i =>
      cases hl : lookup_assignment canvas i with
      | none => simp [reconcile_expected, hdf, hc, hl]
      | some a =>
        by_cases hdd : due_differs a t = true <;>
          simp [reconcile_expected, hdf, hc, hl, hdd]

end Sync

/-! Claim theorems for the subscription lifecycle, the gateway and the
task-row invariants. -/

/-- C5 counterexample: a deactivated user (is_active false) whose stored
tier is premium and whose expiry, 99, lies before the sweep time 100
satisfies the claim's membership condition but is left out of the sweep's
output - the query also filters on `User.is_active`, so the output is not
exactly the set the claim describes. -/
theorem C5_counterexample :
    Fixtures.inactive_expired_user.subscription_tier = SubscriptionTier.premium
  ∧ Fixtures.inactive_expired_user.subscription_expiry_date = some 99
  ∧ (99 : Int) < 100
  ∧ Expiry.get_expired_premium_users 100 [Fixtures.inactive_expired_user] = [] := by
  decide

/-- C5 amended: the expiry sweep's selection returns exactly the active
users whose stored tier is premium and whose (non-null) expiry timestamp
is strictly before the sweep time; among active premium users, one whose
expiry is one second before now is included and one whose expiry is one
second after now is not. -/
theorem C5_expiry_sweep_selection (now : Int) (users : List User) (u : User) :
    (u ∈ Expiry.get_expired_premium_users now users ↔
      (u ∈ users ∧ u.subscription_tier = SubscriptionTier.premium
        ∧ (∃ e, u.subscription_expiry_date = some e ∧ e < now) ∧ u.is_active = true))
  ∧ Expiry.get_expired_premium_users 1000
      [Fixtures.expiry_before_user, Fixtures.expiry_after_user]
    = [Fixtures.expiry_before_user] := by
  constructor
  · simp only [Expiry.get_expired_premium_users, List.mem_filter, Bool.and_eq_true,
      decide_eq_true_eq]
    cases hx : u.subscription_expiry_date with
    | none => simp [hx]
    | some e => simp [hx, and_assoc]
  · decide

/-- C6: every user the sweep selects is downgraded - the final table maps
its id to tier free with a cleared expiry - and receives exactly one
notification attempt; the user-table outcome, the reverted count and the
attempt list are identical under any two send oracles, so a failed send
neither rolls back nor blocks the tier change; rows are updated in place,
never removed. -/
theorem C6_downgrade_is_authoritative (send : String → Bool) (now : Int) (db : List User)
    (hmid : (db.map (fun u => u.messenger_id)).Nodup) :
    (∀ u, u ∈ Expiry.get_expired_premium_users now db →
      (∀ v, v ∈ (Expiry.process_expired_users send now db).db → v.id = u.id →
        v.subscription_tier = SubscriptionTier.free ∧ v.subscription_expiry_date = none)
      ∧ (Expiry.process_expired_users send now db).notified.count u.messenger_id = 1)
  ∧ (∀ send2, (Expiry.process_expired_users send now db).db
        = (Expiry.process_expired_users send2 now db).db
      ∧ (Expiry.process_expired_users send now db).reverted_count
        = (Expiry.process_expired_users send2 now db).reverted_count
      ∧ (Expiry.process_expired_users send now db).notified
        = (Expiry.process_expired_users send2 now db).notified)
  ∧ (Expiry.process_expired_users send now db).db.length = db.length := by
  have hdb : (Expiry.process_expired_users send now db).db
      = db.map (fun v =>
          if (Expiry.get_expired_premium_users now db).any (fun u => u.id = v.id)
          then Expiry.downgrade_user v else v) := by
    simp only [Expiry.process_expired_users]
    exact Expiry.sweep_db send (Expiry.get_expired_premium_users now db) _
  have hnotified : (Expiry.process_expired_users send now db).notified
      = (Expiry.get_expired_premium_users now db).map (fun u => u.messenger_id) := by
    simp only [Expiry.process_expired_users]
    rw [Expiry.sweep_notified send (Expiry.get_expired_premium_users now db) _ ?_]
    · simp
    · intro u hu
      have hu2 : u ∈ db := List.mem_of_mem_filter hu
      exact List.any_eq_true.mpr ⟨u, hu2, by simp⟩
  refine ⟨?_, ?_, ?_⟩
  · intro u hu
    constructor
    · intro v hv hid
      rw [hdb] at hv
      rcases List.mem_map.mp hv with ⟨v0, hv0, hveq⟩
      by_cases hany : (Expiry.get_expired_premium_users now db).any
          (fun w => w.id = v0.id) = true
      · rw [if_pos hany] at hveq
        rw [← hveq]
        exact ⟨rfl, rfl⟩
      · rw [if_neg (by simp [hany])] at hveq
        exfalso
        apply hany
        refine List.any_eq_true.mpr ⟨u, hu, ?_⟩
        rw [← hveq] at hid
        simp [hid]
    · rw [hnotified]
      have hsub : ((Expiry.get_expired_premium_users now db).map
            (fun u => u.messenger_id)).Sublist (db.map (fun u => u.messenger_id)) :=
        (List.filter_sublist db).map _
      have hnd := hmid.sublist hsub
      exact List.count_eq_one_of_mem hnd
        (List.mem_map.mpr ⟨u, hu, rfl⟩)
  · intro send2
    simp only [Expiry.process_expired_users]
    exact Expiry.sweep_send_independent send send2
      (Expiry.get_expired_premium_users now db) _ _ rfl rfl rfl
  · rw [hdb, List.length_map]

/-- C6 witness: the sweep at time 1000 over the single active premium user
whose expiry is 999 downgrades that user (even when every send fails) and
attempts exactly one notification. -/
theorem C6_downgrade_is_authoritative_witness :
    ((Expiry.downgrade_user Fixtures.expiry_before_user).subscription_tier
        = SubscriptionTier.free
      ∧ (Expiry.downgrade_user Fixtures.expiry_before_user).subscription_expiry_date = none)
  ∧ (Expiry.process_expired_users (fun _ => false) 1000
      [Fixtures.expiry_before_user]).notified.count
        Fixtures.expiry_before_user.messenger_id = 1 :=
  ⟨((C6_downgrade_is_authoritative (fun _ => false) 1000 [Fixtures.expiry_before_user]
      (by decide)).1 Fixtures.expiry_before_user (by decide)).1
      (Expiry.downgrade_user Fixtures.expiry_before_user) (by decide) rfl,
   ((C6_downgrade_is_authoritative (fun _ => false) 1000 [Fixtures.expiry_before_user]
      (by decide)).1 Fixtures.expiry_before_user (by decide)).2⟩

/-- C7 counterexample: an assignment fetch that is rate-limited on its
first invocation and would succeed on its second.  sync_single_user
reports the user failed with a canvas_api_error after a single fetch
attempt - the RateLimitError is swallowed by the `except CanvasAPIError`
clause and nothing retries the fetch, although the claim says the fetch is
retried once before the user is skipped. -/
theorem C7_counterexample :
    Fixtures.rate_limited_once 0 = Except.error Gateway.CanvasFailure.rate_limit
  ∧ Fixtures.rate_limited_once 1 = Except.ok []
  ∧ Gateway.sync_single_user Fixtures.rate_limited_once Fixtures.courses_ok
      = { success := false, error := some Gateway.SyncError.canvas_api_error,
          assignment_fetches := 1 } :=
  ⟨rfl, rfl, rfl⟩

/-- C7 amended: when the per-user fetch is rate-limited the Reconciler
records a canvas_api_error and skips the user at once - its outcome
depends only on each fetch's first invocation, so no retry ever happens
there; the retry-once-after-backoff behaviour exists only in the
batch_request_with_rate_limit helper, where a request that is rate-limited
on its first run is run exactly once more and the slot succeeds exactly
when that second run does. -/
theorem C7_rate_limit_handling (α : Type) :
    (∀ (fa : Nat → Except Gateway.CanvasFailure (List Sync.CanvasAssignment))
        (fc : Nat → Except Gateway.CanvasFailure (List String)),
      fa 0 = Except.error Gateway.CanvasFailure.rate_limit →
      Gateway.sync_single_user fa fc
        = { success := false, error := some Gateway.SyncError.canvas_api_error,
            assignment_fetches := 1 })
  ∧ (∀ fa fa2 fc fc2, fa 0 = fa2 0 → fc 0 = fc2 0 →
      Gateway.sync_single_user fa fc = Gateway.sync_single_user fa2 fc2)
  ∧ (∀ request : Nat → Except Gateway.CanvasFailure α,
      request 0 = Except.error Gateway.CanvasFailure.rate_limit →
      Gateway.run_with_rate_limit_retry request = (request 1).toOption) := by
  refine ⟨?_, ?_, ?_⟩
  · intro fa fc h
    simp only [Gateway.sync_single_user, h]
  · intro fa fa2 fc fc2 h1 h2
    simp only [Gateway.sync_single_user, h1, h2]
  · intro request h
    simp only [Gateway.run_with_rate_limit_retry, h]
    cases hr : request 1 <;> simp [Except.toOption, hr]

/-- C7 witness: the amended behaviour evaluated on the
rate-limited-then-ok oracle: the Reconciler path skips the user without a
retry, while the batch helper's slot recovers through its single retry. -/
theorem C7_rate_limit_handling_witness :
    Gateway.sync_single_user Fixtures.rate_limited_once Fixtures.courses_ok
      = { success := false, error := some Gateway.SyncError.canvas_api_error,
          assignment_fetches := 1 }
  ∧ Gateway.run_with_rate_limit_retry
      (fun n => if n = 0 then Except.error Gateway.CanvasFailure.rate_limit
        else Except.ok (7 : Nat))
      = some 7 :=
  ⟨(C7_rate_limit_handling Nat).1 Fixtures.rate_limited_once Fixtures.courses_ok rfl,
   ((C7_rate_limit_handling Nat).2.2
      (fun n => if n = 0 then Except.error Gateway.CanvasFailure.rate_limit
        else Except.ok (7 : Nat)) rfl).trans rfl⟩

/-- C9: each reminder-sent marker is monotone under the four
normal-operation mutations - marking a reminder sent, the reconciliation
overwrite of title and due date, completing, soft-deleting: the marker
either keeps its value or moves from false to true, never from true to
false; and the reconciliation overwrite preserves every marker exactly,
even when the due date moves. -/
theorem C9_marker_monotonicity (op : Sync.TaskOp) (t : Sync.MirrorTask) (m : Marker) :
    t.getMarker m ≤ (op.apply t).getMarker m
  ∧ (∀ title due, ((Sync.TaskOp.reconcileUpdate title due).apply t).getMarker m
      = t.getMarker m)
  ∧ ((op.apply t).getMarker m = t.getMarker m ∨ (op.apply t).getMarker m = true) := by
  refine ⟨?_, fun title due => by cases m <;> rfl, ?_⟩
  · cases op with
    | markReminder reminder_type =>
      simp only [Sync.TaskOp.apply, Sync.mark_reminder_sent]
      split_ifs <;> cases m <;>
        first
          | exact le_refl _
          | exact Bool.le_true _
    | reconcileUpdate title due => cases m <;> exact le_refl _
    | complete => cases m <;> exact le_refl _
    | softDelete => cases m <;> exact le_refl _
  · cases op with
    | markReminder reminder_type =>
      simp only [Sync.TaskOp.apply, Sync.mark_reminder_sent]
      split_ifs <;> cases m <;>
        first
          | exact Or.inl rfl
          | exact Or.inr rfl
    | reconcileUpdate title due => exact Or.inl (by cases m <;> rfl)
    | complete => exact Or.inl (by cases m <;> rfl)
    | softDelete => exact Or.inl (by cases m <;> rfl)

/-- C10: `can_add_manual_task` returns true exactly when the user is an
active premium subscriber (stored tier premium, non-null expiry, now
strictly before expiry) or the monthly manual-task counter is still below
5; and `increment_user_monthly_tasks` bumps the counter, resetting it to 1
(and moving the reset date) exactly when now has reached
month_reset_date plus 31 days. -/
theorem C10_manual_task_gate (now : Int) (u : User) :
    (u.can_add_manual_task now = true ↔
      ((u.subscription_tier = SubscriptionTier.premium
          ∧ ∃ e, u.subscription_expiry_date = some e ∧ now < e)
        ∨ u.manual_tasks_this_month < 5))
  ∧ (∀ month_start, ¬ (u.month_reset_date + 31 * 86400 ≤ now) →
      increment_user_monthly_tasks month_start now u
        = { u with manual_tasks_this_month := u.manual_tasks_this_month + 1 })
  ∧ (∀ month_start, u.month_reset_date + 31 * 86400 ≤ now →
      increment_user_monthly_tasks month_start now u
        = { u with manual_tasks_this_month := 1,
                   month_reset_date := month_start now }) := by
  refine ⟨?_, ?_, ?_⟩
  · by_cases htier : u.subscription_tier = SubscriptionTier.premium
    · simp only [User.can_add_manual_task, User.is_premium, htier]
      cases hx : u.subscription_expiry_date with
      | none => simp [hx]
      | some e => by_cases hlt : now < e <;> simp [hx, hlt]
    · simp [User.can_add_manual_task, User.is_premium, htier]
  · intro month_start h
    unfold increment_user_monthly_tasks
    rw [if_neg (by simpa using h)]
  · intro month_start h
    unfold increment_user_monthly_tasks
    rw [if_pos (by simpa using h)]

/-- C10 witness: the counter behaviour evaluated on the fixture user
(counter 0, reset date 0): at time 100 the counter is bumped; at time
2678405, which is past the 31-day mark, it is reset to 1 and the reset
date moves. -/
theorem C10_manual_task_gate_witness :
    increment_user_monthly_tasks (fun n => n) 100 Fixtures.scenario_user
      = { Fixtures.scenario_user with
          manual_tasks_this_month := Fixtures.scenario_user.manual_tasks_this_month + 1 }
  ∧ increment_user_monthly_tasks (fun n => n) 2678405 Fixtures.scenario_user
      = { Fixtures.scenario_user with manual_tasks_this_month := 1,
                                      month_reset_date := 2678405 } :=
  ⟨(C10_manual_task_gate 100 Fixtures.scenario_user).2.1 (fun n => n) (by decide),
   (C10_manual_task_gate 2678405 Fixtures.scenario_user).2.2 (fun n => n) (by decide)⟩

/-- C4 counterexample: a snapshot in which assignment "A" changed only its
title ("old" to "new") while keeping the due timestamp leaves the mirrored
task completely untouched and counts zero updates - the update condition
at refresh_data.py line 121 compares only the due timestamp, so a
title-only difference does not trigger the overwrite the claim requires. -/
theorem C4_counterexample :
    Fixtures.mirror_a.canvas_assignment_id = some "A"
  ∧ Fixtures.mirror_a.title = "old"
  ∧ Fixtures.mirror_a.due_date = some "D"
  ∧ Fixtures.snapshot_title_only = [{ id := "A", name := some "new", due_at := some "D" }]
  ∧ (Sync.sync_user_assignments [Fixtures.mirror_a] Fixtures.snapshot_title_only).updated = 0
  ∧ (Sync.sync_user_assignments [Fixtures.mirror_a] Fixtures.snapshot_title_only).db
      = [Fixtures.mirror_a] := by
  decide

/-- C4 amended: with unique row ids and unique mirrored assignment ids,
one reconciliation run issues exactly one creation call per snapshot id
absent from the non-deleted mirror; and every row of the table is mapped
pointwise by `reconcile_expected`: rows whose id left the snapshot are
soft-deleted in place (the table keeps its length, nothing is physically
removed), rows whose id is still in the snapshot get their title and due
date overwritten exactly when the due timestamp differs (a title-only
change does nothing), and the reminder-sent markers and row id survive
every one of these outcomes. -/
theorem C4_reconciliation_diff (db : List Sync.MirrorTask)
    (canvas : List Sync.CanvasAssignment)
    (hids : (db.map (fun t => t.id)).Nodup)
    (hca : ((Sync.get_user_canvas_tasks db).filterMap
        (fun t => t.canvas_assignment_id)).Nodup) :
    (Sync.sync_user_assignments db canvas).db = db.map (Sync.reconcile_expected canvas)
  ∧ (∀ i, ((Sync.sync_user_assignments db canvas).created.map
        (fun d => d.canvas_assignment_id)).count i
      = if i ∈ canvas.map (fun a => a.id)
            ∧ ¬ i ∈ (Sync.get_user_canvas_tasks db).filterMap
                (fun t => t.canvas_assignment_id)
        then 1 else 0)
  ∧ (∀ t m, (Sync.reconcile_expected canvas t).getMarker m = t.getMarker m
      ∧ (Sync.reconcile_expected canvas t).id = t.id)
  ∧ (Sync.sync_user_assignments db canvas).db.length = db.length := by
  refine ⟨Sync.sync_db_eq_map db canvas hids hca,
    fun i => Sync.sync_created_count db canvas i,
    fun t m => ⟨Sync.reconcile_expected_getMarker canvas t m,
      Sync.reconcile_expected_id canvas t⟩, ?_⟩
  rw [Sync.sync_db_eq_map db canvas hids hca, List.length_map]

/-- C4 witness: the amended diff evaluated on a one-task mirror and a
snapshot whose assignment "A" moved its due date: the final table is the
pointwise reconciliation image, and no creation call is issued for the
absent id "B". -/
theorem C4_reconciliation_diff_witness :
    (Sync.sync_user_assignments [Fixtures.mirror_a] Fixtures.snapshot_due_moved).db
      = [Fixtures.mirror_a].map (Sync.reconcile_expected Fixtures.snapshot_due_moved)
  ∧ ((Sync.sync_user_assignments [Fixtures.mirror_a] Fixtures.snapshot_due_moved).created.map
        (fun d => d.canvas_assignment_id)).count "B" = 0 :=
  ⟨(C4_reconciliation_diff [Fixtures.mirror_a] Fixtures.snapshot_due_moved
      (by decide) (by decide)).1,
   ((C4_reconciliation_diff [Fixtures.mirror_a] Fixtures.snapshot_due_moved
      (by decide) (by decide)).2.1 "B").trans (by decide)⟩

end Easely
